import Mathlib

/-!
# Verification of the rcoffee synchronization core

Shallow embedding of `src/rcoffee/process.py` (the `Process` dataclass and its
methods) and proofs about the claims of the specification.

Conventions of the embedding:
* an rclone invocation is modelled as the full argument vector (`List String`)
  that `spawn` would receive (`spawn("rclone", command, "-vv", *args)`);
* the leading underscore of the Python method names is dropped (`_cross_copy`
  becomes `Process.cross_copy`), since underscore-prefixed names are
  inconvenient identifiers in Lean;
* paths are opaque strings (the Python code treats them opaquely as well,
  passing them straight to rclone).
-/

/-- Embedding of the `Process` dataclass fields used by the rclone-invocation
helpers (`process.py` lines 33-37).  `batch_cooldown` and `poll_interval` are
durations only used as sleep lengths and play no role in the command
construction, so they are omitted here. -/
structure Process where
  remote_path : String
  local_path : String
  modify_window : String
deriving DecidableEq, Repr

namespace Process

/-- `_spawn_rclone` (`process.py` lines 43-46): builds the argument vector
`["rclone", command, "-vv", *args]` passed to `spawn`. -/
def spawn_rclone (_p : Process) (command : String) (args : List String) : List String :=
  ["rclone", command, "-vv"] ++ args

/-- `_transfer` (`process.py` lines 52-53): every transfer passes `--update`
and `--modify-window={self.modify_window}` before source, dest and the extra
arguments. -/
def transfer (p : Process) (command : String) (source dest : String)
    (extra : List String) : List String :=
  p.spawn_rclone command (["--update", "--modify-window=" ++ p.modify_window, source, dest] ++ extra)

/-- `_sync_update` (`process.py` lines 55-56): mirrored sync with
`--delete-before`. -/
def sync_update (p : Process) (source dest : String) : List String :=
  p.transfer "sync" source dest ["--delete-before"]

/-- `_copy_update` (`process.py` lines 58-59): non-deleting update-copy. -/
def copy_update (p : Process) (source dest : String) : List String :=
  p.transfer "copy" source dest []

/-- `_cross_copy` (`process.py` lines 61-65): the two update-copies, in the
order the source performs them: first `remote_path → local_path`
(line 63), then `local_path → remote_path` (line 64). -/
def cross_copy (p : Process) : List (List String) :=
  [p.copy_update p.remote_path p.local_path,
   p.copy_update p.local_path p.remote_path]

/-- `_dedupe` (`process.py` lines 67-70): `rclone dedupe --dedupe-mode newest
<remote_path>`. -/
def dedupe (p : Process) : List String :=
  p.spawn_rclone "dedupe" ["--dedupe-mode", "newest", p.remote_path]

/-- The decision of `_sync` after batching (`process.py` lines 141-151),
as the list of rclone transfer invocations it performs.  `none` models the
`assert False, "Unreachable"` branch. -/
def decideTransfers (p : Process) (need_push need_pull : Bool) :
    Option (List (List String)) :=
  if need_push && need_pull then some p.cross_copy
  else if need_push then some [p.sync_update p.local_path p.remote_path]
  else if need_pull then some [p.sync_update p.remote_path p.local_path]
  else none

/-- The rclone invocations of one completed `_sync` cycle (`process.py`
lines 117-155): the pre-batching dedupe (line 119), the decided transfers
(lines 141-151), and the post-sync dedupe (line 155).  The batching loop
itself invokes no rclone command. -/
def cycleOps (p : Process) (need_push need_pull : Bool) :
    Option (List (List String)) :=
  match p.decideTransfers need_push need_pull with
  | some ts => some (p.dedupe :: (ts ++ [p.dedupe]))
  | none => none

/-- The rclone invocations `run_async` performs at startup before spawning the
watcher, poller and coordinator tasks (`process.py` line 163). -/
def startupOps (p : Process) : List (List String) :=
  p.cross_copy

end Process

/-- A concrete `Process` used for closed counterexamples and witnesses. -/
def sampleProc : Process :=
  { remote_path := "gdrive:coffee", local_path := "/home/user/coffee", modify_window := "1s" }

example : sampleProc.cross_copy =
    [["rclone", "copy", "-vv", "--update", "--modify-window=1s", "gdrive:coffee", "/home/user/coffee"],
     ["rclone", "copy", "-vv", "--update", "--modify-window=1s", "/home/user/coffee", "gdrive:coffee"]] := by
  decide

/-! ## The wake signal (`_sync_request` / `_request_sync`)

The `asyncio.Future` stored in `self._sync_request` is modelled as an
`Option Bool`: `none` when no future exists yet (before `run_async`
creates it), `some false` for a pending (armed, unset) future, `some true`
for a resolved (open) one. -/

/-- `_request_sync` (`process.py` lines 78-81): resolve the future only when
it exists and is not already done; otherwise do nothing. -/
def requestSync : Option Bool → Option Bool
  | some false => some true
  | g => g

/-! ## The remote poller (`_fetch_remote_state` / `_poll_remote`) -/

/-- A remote listing entry: the `Path` field `lsjson` reports, paired with the
rest of the entry's metadata (size, times, ...), kept opaque.  Snapshot
comparison in `_poll_remote` is full structural equality of the parsed
entries, which this pairing preserves. -/
abbrev Entry := String × String

/-- Insertion of an entry into a path-sorted list, used to model
`sorted(..., key=lambda item: item["Path"])`. -/
def insertByPath (e : Entry) : List Entry → List Entry
  | [] => [e]
  | f :: rest => if e.1 < f.1 then e :: f :: rest else f :: insertByPath e rest

/-- The sort `_fetch_remote_state` applies to the parsed listing
(`process.py` line 76): stable sort by the `Path` key. -/
def sortByPath (l : List Entry) : List Entry :=
  l.foldr insertByPath []

/-- What the `lsjson` subprocess's stdout yields, as far as
`_fetch_remote_state` distinguishes it:
* `empty` — no stdout reader or falsy (empty) content, so
  `json.loads(...) if stdout_content else None` evaluates to `None`;
* `malformed` — non-empty content that `json.loads` cannot parse;
* `parsed` — non-empty content parsing to a JSON array of entries. -/
inductive Stdout where
  | empty
  | malformed
  | parsed (entries : List Entry)
deriving DecidableEq, Repr

/-- `_fetch_remote_state` (`process.py` lines 72-76).  On `empty` the code
evaluates `sorted(None, key=...)`, which raises `TypeError`; on `malformed`,
`json.loads` raises `JSONDecodeError`; both are modelled as `Except.error`.
On a parsed listing it returns the entries sorted by `Path`. -/
def fetch_remote_state : Stdout → Except Unit (List Entry)
  | .empty => .error ()
  | .malformed => .error ()
  | .parsed entries => .ok (sortByPath entries)

/-- The poller-visible state one iteration of `_poll_remote` reads and
writes: the `last_state` local variable (`none` before the first successful
poll), the shared `_remote_changed` flag, and the shared `_sync_request`
future. -/
structure PollState where
  last : Option (List Entry)
  remoteChanged : Bool
  gate : Option Bool
deriving DecidableEq, Repr

/-- The condition of `process.py` line 100, `last_state and new_state !=
last_state`: Python truthiness of `last_state` (false for `None` and for the
empty list), then structural inequality. -/
def pollFire (last : Option (List Entry)) (new : List Entry) : Bool :=
  match last with
  | none => false
  | some l => !l.isEmpty && new ≠ l

/-- One iteration of the `while True` body of `_poll_remote` (`process.py`
lines 97-109), given what the listing subprocess produced.  An exception from
`_fetch_remote_state` propagates: there is no `try`/`except` in
`_poll_remote`, so the iteration (and the poller task) ends with the error
instead of producing a next state. -/
def pollStep (st : PollState) (out : Stdout) : Except Unit PollState :=
  match fetch_remote_state out with
  | .error e => .error e
  | .ok new =>
      let fire := pollFire st.last new
      .ok { last := some new
            remoteChanged := if fire then true else st.remoteChanged
            gate := if fire then requestSync st.gate else st.gate }

/-! ## The batching loop of `_sync` (`process.py` lines 123-131)

Functional model of the loop

    need_push = False
    need_pull = False
    while self._local_changed or self._remote_changed:
        need_push |= self._local_changed
        need_pull |= self._remote_changed
        self._local_changed, self._remote_changed = False, False
        await asyncio.sleep(self.batch_cooldown.total_seconds())

`l`/`r` are the flag values at the top of the current iteration; `evs` is the
schedule of change events: the i-th element is the pair of flags that watcher
and poller set during the i-th cooldown sleep (the flags were cleared to
`False` just before that sleep, so the pair is exactly the flag state at the
next loop top).  An exhausted schedule means silence: the flags stay `False`
after the clear, so the loop exits at the next top. -/
def batchRun (l r push pull : Bool) : List (Bool × Bool) → Bool × Bool
  | [] => if l || r then (push || l, pull || r) else (push, pull)
  | e :: rest =>
      if l || r then batchRun e.1 e.2 (push || l) (pull || r) rest
      else (push, pull)

/-! ## The interleaved system (`_watch_local`, `_poll_remote`, `_sync`)

Small-step model of the cooperative single-threaded interleaving.  The
coordinator's program counter can only be observed at its suspension points;
the code between two suspension points runs atomically.  Suspension points of
`_sync` (`process.py` lines 111-155):

* `idle`         — `await self._sync_request` (line 118);
* `preDedupe`    — awaiting the pre-batching dedupe subprocess (line 119);
* `cooling`      — awaiting the cooldown sleep inside the batching loop
                   (line 131), holding the `need_push`/`need_pull`
                   accumulators;
* `transferring` — awaiting the decided transfer subprocess(es)
                   (lines 141-149), after the future was replaced (line 137);
* `postDedupe`   — awaiting the post-sync dedupe subprocess (line 155);
* `crashed`      — the `assert False, "Unreachable"` branch fired (line 151).

The watcher and poller bodies between suspension points
(`self._local_changed = True; self._request_sync()`, lines 88-89, and
`self._remote_changed = True; self._request_sync()`, lines 105-106) are each
a single atomic step that can occur while the coordinator is suspended, i.e.
in any phase. -/
inductive Phase where
  | idle
  | preDedupe
  | cooling
  | transferring
  | postDedupe
  | crashed
deriving DecidableEq, Repr

/-- The shared state of the three tasks: the coordinator phase, the two
dirty flags, the wake future, and the coordinator's local accumulators. -/
structure Sys where
  phase : Phase
  localChanged : Bool
  remoteChanged : Bool
  gate : Option Bool
  needPush : Bool
  needPull : Bool
deriving DecidableEq, Repr

/-- The interleaving step relation of the three tasks. -/
inductive SysStep : Sys → Sys → Prop where
  /-- Watcher observes a local change (`process.py` lines 86-89). -/
  | localEvent (s : Sys) :
      SysStep s { s with localChanged := true, gate := requestSync s.gate }
  /-- Poller observes a remote difference (`process.py` lines 100-106). -/
  | remoteEvent (s : Sys) :
      SysStep s { s with remoteChanged := true, gate := requestSync s.gate }
  /-- The resolved future releases `await self._sync_request` and the
  coordinator starts the pre-batching dedupe (lines 118-119). -/
  | wake (s : Sys) (hp : s.phase = .idle) (hg : s.gate = some true) :
      SysStep s { s with phase := .preDedupe }
  /-- Pre-dedupe finishes; a flag is set, so the batching loop body runs:
  accumulate, clear, enter the cooldown sleep (lines 123-131). -/
  | batchEnter (s : Sys) (hp : s.phase = .preDedupe)
      (hc : (s.localChanged || s.remoteChanged) = true) :
      SysStep s { s with phase := .cooling,
                         needPush := s.localChanged, needPull := s.remoteChanged,
                         localChanged := false, remoteChanged := false }
  /-- Pre-dedupe finishes with both flags clear: the loop body is skipped,
  the future is replaced (line 137) and the decision falls through every
  branch to `assert False` (line 151). -/
  | batchSkip (s : Sys) (hp : s.phase = .preDedupe)
      (hc : (s.localChanged || s.remoteChanged) = false) :
      SysStep s { s with phase := .crashed,
                         needPush := false, needPull := false,
                         gate := some false }
  /-- Cooldown sleep ends with a flag set again: another loop iteration
  (lines 126-131). -/
  | batchAgain (s : Sys) (hp : s.phase = .cooling)
      (hc : (s.localChanged || s.remoteChanged) = true) :
      SysStep s { s with needPush := s.needPush || s.localChanged,
                         needPull := s.needPull || s.remoteChanged,
                         localChanged := false, remoteChanged := false }
  /-- Cooldown sleep ends with both flags clear: the loop exits, the future
  is replaced with a fresh pending one (line 137), and some accumulator is
  set, so a transfer branch starts (lines 141-149). -/
  | batchExitRun (s : Sys) (hp : s.phase = .cooling)
      (hc : (s.localChanged || s.remoteChanged) = false)
      (hd : (s.needPush || s.needPull) = true) :
      SysStep s { s with phase := .transferring, gate := some false }
  /-- Loop exits with both accumulators clear: the future is replaced
  (line 137) and the decision reaches `assert False` (line 151). -/
  | batchExitCrash (s : Sys) (hp : s.phase = .cooling)
      (hc : (s.localChanged || s.remoteChanged) = false)
      (hd : (s.needPush || s.needPull) = false) :
      SysStep s { s with phase := .crashed, gate := some false }
  /-- The decided transfer(s) complete and the post-sync dedupe starts
  (lines 153-155). -/
  | transferDone (s : Sys) (hp : s.phase = .transferring) :
      SysStep s { s with phase := .postDedupe }
  /-- Post-dedupe completes; the coordinator loops back to
  `await self._sync_request` (lines 117-118). -/
  | cycleDone (s : Sys) (hp : s.phase = .postDedupe) :
      SysStep s { s with phase := .idle }

/-- The state right after `run_async` finished the startup cross-copy and
created the first future (`process.py` lines 163-165): coordinator at the
initial `await`, flags clear, future pending. -/
def initSys : Sys :=
  { phase := .idle, localChanged := false, remoteChanged := false,
    gate := some false, needPush := false, needPull := false }

/-- Reachability from the post-startup state under the interleaving. -/
inductive SysReach : Sys → Prop where
  | init : SysReach initSys
  | step {s s' : Sys} : SysReach s → SysStep s s' → SysReach s'

/-- The inductive invariant of the interleaved system.  The key clauses: a
resolved future implies a dirty flag is still set (events set a flag in the
same atomic step that resolves the future, and flags are only cleared by the
batching loop after being accumulated); inside the batching loop an
accumulator is set; and the crash phase is unreachable. -/
def SysInv (s : Sys) : Prop :=
  match s.phase with
  | .idle => s.gate = some true → (s.localChanged || s.remoteChanged) = true
  | .preDedupe => (s.localChanged || s.remoteChanged) = true
  | .cooling => (s.needPush || s.needPull) = true
  | .transferring =>
      (s.needPush || s.needPull) = true ∧
      (s.gate = some true → (s.localChanged || s.remoteChanged) = true)
  | .postDedupe => s.gate = some true → (s.localChanged || s.remoteChanged) = true
  | .crashed => False

/-- `_request_sync` can only leave a pending future pending: a pending result
implies the future was already pending. -/
lemma requestSync_eq_pending {g : Option Bool} (h : requestSync g = some false) :
    g = some false := by
  cases g with
  | none => exact h
  | some b => cases b with
    | false => rfl
    | true => exact h

/-- Every interleaving step preserves the system invariant. -/
lemma sysInv_step {s s' : Sys} (hinv : SysInv s) (hstep : SysStep s s') :
    SysInv s' := by
  cases hstep with
  | localEvent => cases hp : s.phase <;> simp_all [SysInv]
  | remoteEvent => cases hp : s.phase <;> simp_all [SysInv]
  | wake hp hg => simp_all [SysInv]
  | batchEnter hp hc => simp_all [SysInv]
  | batchSkip hp hc => simp_all [SysInv]
  | batchAgain hp hc =>
      simp_all [SysInv]
      tauto
  | batchExitRun hp hc hd => simp_all [SysInv]
  | batchExitCrash hp hc hd => simp_all [SysInv]
  | transferDone hp => simp_all [SysInv]
  | cycleDone hp => simp_all [SysInv]

/-- Every reachable state satisfies the system invariant. -/
lemma sysInv_reach {s : Sys} (h : SysReach s) : SysInv s := by
  induction h with
  | init => simp [SysInv, initSys]
  | step _ hs ih => exact sysInv_step ih hs

/-- An accumulated need-push is never lost by later batching iterations. -/
lemma batchRun_push_mono (evs : List (Bool × Bool)) :
    ∀ l r pull, (batchRun l r true pull evs).1 = true := by
  induction evs with
  | nil =>
      intro l r pull
      unfold batchRun
      split <;> simp
  | cons e rest ih =>
      intro l r pull
      unfold batchRun
      split
      · simpa using ih e.1 e.2 (pull || r)
      · rfl

/-- With no remote events in the schedule, the need-pull accumulator stays
false through the whole batching loop. -/
lemma batchRun_pull_false :
    ∀ (evs : List (Bool × Bool)), (∀ e ∈ evs, e.2 = false) →
      ∀ l push, (batchRun l false push false evs).2 = false
  | [], _, l, push => by
      unfold batchRun
      split <;> simp
  | e :: rest, h, l, push => by
      unfold batchRun
      have he : e.2 = false := h e (List.mem_cons_self ..)
      have ih := batchRun_pull_false rest (fun x hx => h x (List.mem_cons_of_mem _ hx))
      split
      · simpa [he] using ih e.1 (push || l)
      · rfl

/-- A mirrored sync invocation is never the dedupe invocation: they differ in
the rclone command name. -/
lemma sync_update_ne_dedupe (p : Process) (s d : String) :
    p.sync_update s d ≠ p.dedupe := by
  simp [Process.sync_update, Process.transfer, Process.spawn_rclone, Process.dedupe]

/-- An update-copy invocation is never the dedupe invocation: they differ in
the rclone command name. -/
lemma copy_update_ne_dedupe (p : Process) (s d : String) :
    p.copy_update s d ≠ p.dedupe := by
  simp [Process.copy_update, Process.transfer, Process.spawn_rclone, Process.dedupe]

/-! ## Claims -/

/-- Claim C1, counterexample: the cross-copy of `_cross_copy` is NOT the
push-then-pull sequence the claim states.  At a concrete process, the
sequence it runs differs from `[local→remote copy, remote→local copy]`. -/
theorem C1_counterexample :
    ¬ (sampleProc.cross_copy =
        [sampleProc.copy_update sampleProc.local_path sampleProc.remote_path,
         sampleProc.copy_update sampleProc.remote_path sampleProc.local_path]) := by
  decide

/-- Claim C1 as amended: every cross-copy performs the two non-deleting
update-copies in the order pull then push — first remote→local (line 63),
then local→remote (line 64) — and this same `_cross_copy` is what both the
startup (line 163) and the both-flags branch of the decision (line 143)
execute; each direction is an update-only `rclone copy` with the configured
modify-window and no delete flag. -/
theorem C1_cross_copy_pull_then_push (p : Process) :
    p.cross_copy =
      [p.copy_update p.remote_path p.local_path,
       p.copy_update p.local_path p.remote_path] ∧
    p.startupOps = p.cross_copy ∧
    p.decideTransfers true true = some p.cross_copy ∧
    (∀ s d, p.copy_update s d =
      ["rclone", "copy", "-vv", "--update", "--modify-window=" ++ p.modify_window, s, d]) :=
  ⟨rfl, rfl, rfl, fun _ _ => rfl⟩

/-- Claim C2: what the code actually does on a failed or unparsable listing.
`_fetch_remote_state` raises (`json.loads` on malformed output;
`sorted(None, ...)` on empty output), and `_poll_remote` has no handler, so
the poll iteration produces no successor state — the exception propagates and
terminates the poller (and, through `asyncio.gather`, the process) instead of
proceeding to the next tick with no flag set. -/
theorem C2_poll_crash_on_bad_listing :
    fetch_remote_state Stdout.empty = Except.error () ∧
    fetch_remote_state Stdout.malformed = Except.error () ∧
    pollStep { last := some [("a", "meta")], remoteChanged := false, gate := some false }
      Stdout.empty = Except.error () ∧
    pollStep { last := some [("a", "meta")], remoteChanged := false, gate := some false }
      Stdout.malformed = Except.error () :=
  ⟨rfl, rfl, rfl, rfl⟩

/-- Claim C5: the decision after batching is exactly determined by the
accumulated flags — both set gives the cross-copy, push-only gives the
local→remote mirrored sync, pull-only gives the remote→local mirrored sync —
and the mirrored syncs carry `--delete-before` while every transfer carries
`--update` and the configured `--modify-window`. -/
theorem C5_direction_decision (p : Process) :
    p.decideTransfers true true = some p.cross_copy ∧
    p.decideTransfers true false = some [p.sync_update p.local_path p.remote_path] ∧
    p.decideTransfers false true = some [p.sync_update p.remote_path p.local_path] ∧
    (∀ s d, p.sync_update s d =
      ["rclone", "sync", "-vv", "--update", "--modify-window=" ++ p.modify_window,
       s, d, "--delete-before"]) ∧
    (∀ s d, p.copy_update s d =
      ["rclone", "copy", "-vv", "--update", "--modify-window=" ++ p.modify_window, s, d]) :=
  ⟨rfl, rfl, rfl, fun _ _ => rfl, fun _ _ => rfl⟩

/-- Claim C9: raising the wake signal is idempotent — on an already resolved
future or a missing one it is a no-op, and applying it twice equals applying
it once. -/
theorem C9_wake_idempotent :
    requestSync (some true) = some true ∧
    requestSync none = none ∧
    (∀ g : Option Bool, requestSync (requestSync g) = requestSync g) := by
  refine ⟨rfl, rfl, fun g => ?_⟩
  cases g with
  | none => rfl
  | some b => cases b <;> rfl

/-- Claim C3: in every step from a reachable state, (1) a fresh pending gate
can only come into existence through the batching-loop-exit step, which goes
from the cooldown sleep directly into the transfer — i.e. re-arming happens
after the batching loop exits and before the transfer starts, and nowhere
else; (2) from the Syncing phase the system can only stay in Syncing (wakes
and flag writes during the transfer change neither the phase nor the decided
accumulators) or finish into PostDedupe; (3) from PostDedupe it can only stay
there or return to Idle.  Hence a wake during Syncing or PostDedupe never
starts a second concurrent cycle. -/
theorem C3_single_cycle (s s' : Sys) (hr : SysReach s) (hstep : SysStep s s') :
    (s'.gate = some false →
      s.gate = some false ∨ (s.phase = Phase.cooling ∧ s'.phase = Phase.transferring)) ∧
    (s.phase = Phase.transferring →
      s'.needPush = s.needPush ∧ s'.needPull = s.needPull ∧
      (s'.phase = Phase.transferring ∨ s'.phase = Phase.postDedupe)) ∧
    (s.phase = Phase.postDedupe →
      s'.phase = Phase.postDedupe ∨ s'.phase = Phase.idle) := by
  have hinv := sysInv_reach hr
  cases hstep with
  | localEvent =>
      exact ⟨fun hg => Or.inl (requestSync_eq_pending hg),
             fun ht => ⟨rfl, rfl, Or.inl ht⟩, fun ht => Or.inl ht⟩
  | remoteEvent =>
      exact ⟨fun hg => Or.inl (requestSync_eq_pending hg),
             fun ht => ⟨rfl, rfl, Or.inl ht⟩, fun ht => Or.inl ht⟩
  | wake hp hg =>
      refine ⟨fun h => Or.inl h, fun ht => ?_, fun ht => ?_⟩ <;> simp_all
  | batchEnter hp hc =>
      refine ⟨fun h => Or.inl h, fun ht => ?_, fun ht => ?_⟩ <;> simp_all
  | batchSkip hp hc =>
      simp only [SysInv, hp] at hinv
      simp [hc] at hinv
  | batchAgain hp hc =>
      refine ⟨fun h => Or.inl h, fun ht => ?_, fun ht => ?_⟩ <;> simp_all
  | batchExitRun hp hc hd =>
      refine ⟨fun _ => Or.inr ⟨hp, rfl⟩, fun ht => ?_, fun ht => ?_⟩ <;> simp_all
  | batchExitCrash hp hc hd =>
      simp only [SysInv, hp] at hinv
      simp [hd] at hinv
  | transferDone hp =>
      refine ⟨fun h => Or.inl h, fun _ => ⟨rfl, rfl, Or.inr rfl⟩, fun ht => ?_⟩
      simp_all
  | cycleDone hp =>
      refine ⟨fun h => Or.inl h, fun ht => ?_, fun _ => Or.inr rfl⟩
      simp_all

/-- The state after a local change event fires in the post-startup state:
flag set, future resolved. -/
def afterLocalEvent : Sys :=
  { phase := .idle, localChanged := true, remoteChanged := false,
    gate := some true, needPush := false, needPull := false }

/-- Witness for claim C3: the conclusion instantiated at the reachable
post-startup state and the local-change step out of it. -/
theorem C3_single_cycle_witness :
    (afterLocalEvent.gate = some false →
      initSys.gate = some false ∨
        (initSys.phase = Phase.cooling ∧ afterLocalEvent.phase = Phase.transferring)) ∧
    (initSys.phase = Phase.transferring →
      afterLocalEvent.needPush = initSys.needPush ∧
      afterLocalEvent.needPull = initSys.needPull ∧
      (afterLocalEvent.phase = Phase.transferring ∨
        afterLocalEvent.phase = Phase.postDedupe)) ∧
    (initSys.phase = Phase.postDedupe →
      afterLocalEvent.phase = Phase.postDedupe ∨ afterLocalEvent.phase = Phase.idle) :=
  C3_single_cycle initSys afterLocalEvent SysReach.init (SysStep.localEvent initSys)

/-- Claim C7: the defensive `assert False` branch is unreachable — no
reachable state of the interleaved system is in the crashed phase, and
whenever the decision has been taken (the transfer is in progress), at least
one of the accumulated flags is set. -/
theorem C7_assert_unreachable (s : Sys) (h : SysReach s) :
    s.phase ≠ Phase.crashed ∧
    (s.phase = Phase.transferring → (s.needPush || s.needPull) = true) := by
  have hinv := sysInv_reach h
  refine ⟨fun hc => ?_, fun ht => ?_⟩
  · simp only [SysInv, hc] at hinv
  · simp only [SysInv, ht] at hinv
    exact hinv.1

/-- Witness for claim C7: the post-startup state is reachable and satisfies
the conclusion. -/
theorem C7_assert_unreachable_witness :
    initSys.phase ≠ Phase.crashed ∧
    (initSys.phase = Phase.transferring → (initSys.needPush || initSys.needPull) = true) :=
  C7_assert_unreachable initSys SysReach.init

/-- Claim C4: the batching loop OR-accumulates the flags at each iteration
top, clears them, sleeps, and exits only from a top with both flags false;
consequently, for every schedule of local-only change events (each cooldown
window may carry any number of local events and no remote one) started by a
local wake, the loop yields exactly `needPush = true, needPull = false`, so
the decision is exactly one push-direction mirrored sync — regardless of how
many events arrived.  The last conjunct is the no-loss half of the OR: an
accumulated need-push survives every later iteration. -/
theorem C4_batching_coalesces (p : Process) (evs : List (Bool × Bool))
    (h : ∀ e ∈ evs, e.2 = false) :
    batchRun true false false false evs = (true, false) ∧
    p.decideTransfers true false = some [p.sync_update p.local_path p.remote_path] ∧
    (∀ l r pull evs2, (batchRun l r true pull evs2).1 = true) := by
  refine ⟨?_, rfl, fun l r pull evs2 => batchRun_push_mono evs2 l r pull⟩
  cases evs with
  | nil => rfl
  | cons e rest =>
      have he : e.2 = false := h e (List.mem_cons_self ..)
      have h1 : (batchRun e.1 e.2 true false rest).1 = true :=
        batchRun_push_mono rest e.1 e.2 false
      have h2 : (batchRun e.1 false true false rest).2 = false :=
        batchRun_pull_false rest (fun x hx => h x (List.mem_cons_of_mem _ hx)) e.1 true
      have hstep : batchRun true false false false (e :: rest) =
          batchRun e.1 e.2 true false rest := rfl
      rw [hstep, he] at *
      rw [he] at h1
      exact Prod.ext h1 h2

/-- Witness for claim C4: three cooldown windows carrying only local events
still produce the single push decision. -/
theorem C4_batching_coalesces_witness :
    (∀ e ∈ [(true, false), (false, false), (true, false)], (e : Bool × Bool).2 = false) ∧
    (batchRun true false false false [(true, false), (false, false), (true, false)] =
        (true, false) ∧
      sampleProc.decideTransfers true false =
        some [sampleProc.sync_update sampleProc.local_path sampleProc.remote_path] ∧
      (∀ l r pull evs2, (batchRun l r true pull evs2).1 = true)) :=
  ⟨by decide, C4_batching_coalesces sampleProc _ (by decide)⟩

/-- Claim C6: in every completed sync cycle the rclone invocation sequence
begins with the dedupe, ends with the dedupe, contains the dedupe exactly
twice, and no invocation strictly between the two is the dedupe. -/
theorem C6_dedupe_twice (p : Process) (push pull : Bool) (ops : List (List String))
    (h : p.cycleOps push pull = some ops) :
    ops.head? = some p.dedupe ∧
    ops.getLast? = some p.dedupe ∧
    ops.count p.dedupe = 2 ∧
    (∀ o ∈ (ops.drop 1).dropLast, o ≠ p.dedupe) := by
  cases push <;> cases pull <;>
    simp only [Process.cycleOps, Process.decideTransfers, Bool.and_self, Bool.and_false,
      Bool.and_true, Bool.false_and, Bool.true_and, if_true, if_false, ite_true, ite_false,
      Bool.false_eq_true, Option.some.injEq, reduceIte] at h
  · exact absurd h (by simp)
  · subst h
    refine ⟨rfl, rfl, ?_, ?_⟩
    · simp [List.count_cons, sync_update_ne_dedupe]
    · intro o ho
      simp only [Process.cross_copy, List.append_nil, List.drop, List.dropLast] at ho
      simp only [List.mem_singleton] at ho
      subst ho
      exact sync_update_ne_dedupe p _ _
  · subst h
    refine ⟨rfl, rfl, ?_, ?_⟩
    · simp [List.count_cons, sync_update_ne_dedupe]
    · intro o ho
      simp only [List.drop, List.dropLast, List.mem_singleton] at ho
      subst ho
      exact sync_update_ne_dedupe p _ _
  · subst h
    refine ⟨rfl, ?_, ?_, ?_⟩
    · rfl
    · simp [Process.cross_copy, List.count_cons, copy_update_ne_dedupe]
    · intro o ho
      have ho' : o ∈ [p.copy_update p.remote_path p.local_path,
                      p.copy_update p.local_path p.remote_path] := ho
      rcases List.mem_cons.mp ho' with ho2 | ho2
      · subst ho2
        exact copy_update_ne_dedupe p _ _
      · rcases List.mem_cons.mp ho2 with ho3 | ho3
        · subst ho3
          exact copy_update_ne_dedupe p _ _
        · exact absurd ho3 (List.not_mem_nil o)

/-- Witness for claim C6: the push-only cycle at a concrete process. -/
theorem C6_dedupe_twice_witness :
    ([sampleProc.dedupe,
      sampleProc.sync_update sampleProc.local_path sampleProc.remote_path,
      sampleProc.dedupe] : List (List String)).head? = some sampleProc.dedupe ∧
    ([sampleProc.dedupe,
      sampleProc.sync_update sampleProc.local_path sampleProc.remote_path,
      sampleProc.dedupe] : List (List String)).getLast? = some sampleProc.dedupe ∧
    ([sampleProc.dedupe,
      sampleProc.sync_update sampleProc.local_path sampleProc.remote_path,
      sampleProc.dedupe] : List (List String)).count sampleProc.dedupe = 2 ∧
    (∀ o ∈ (([sampleProc.dedupe,
        sampleProc.sync_update sampleProc.local_path sampleProc.remote_path,
        sampleProc.dedupe] : List (List String)).drop 1).dropLast,
      o ≠ sampleProc.dedupe) :=
  C6_dedupe_twice sampleProc true false _ rfl

/-- Claim C8: a successful poll with no previous snapshot is a pure
baseline-setting poll — the remote-changed flag and the wake future are left
exactly as they were, and the snapshot is stored — and every successful poll,
different or not, stores the new snapshot as the last one. -/
theorem C8_first_poll_baseline (st : PollState) (raw : List Entry)
    (h : st.last = none) :
    pollStep st (Stdout.parsed raw) =
      Except.ok { last := some (sortByPath raw),
                  remoteChanged := st.remoteChanged, gate := st.gate } ∧
    (∀ (st2 : PollState) (raw2 : List Entry) (r : PollState),
        pollStep st2 (Stdout.parsed raw2) = Except.ok r →
        r.last = some (sortByPath raw2)) := by
  constructor
  · simp [pollStep, fetch_remote_state, pollFire, h]
  · intro st2 raw2 r hr
    simp only [pollStep, fetch_remote_state, Except.ok.injEq] at hr
    rw [← hr]

/-- Witness for claim C8: a concrete first poll stores the sorted listing and
raises nothing. -/
theorem C8_first_poll_baseline_witness :
    ({ last := none, remoteChanged := false, gate := some false } : PollState).last = none ∧
    pollStep { last := none, remoteChanged := false, gate := some false }
        (Stdout.parsed [("b", "m2")]) =
      Except.ok { last := some [("b", "m2")],
                  remoteChanged := false, gate := some false } :=
  ⟨rfl, ((C8_first_poll_baseline _ _ rfl).1).trans (congrArg Except.ok (by decide))⟩

/-- Claim C10: when the stored baseline is the empty listing, the truthiness
test `last_state and new_state != last_state` is false whatever the new
snapshot is, so the poll sets no flag and requests no wake, yet it still
replaces the baseline; once the stored baseline is non-empty, a differing
snapshot does set the flag and request the wake. -/
theorem C10_empty_baseline_blind (st : PollState) (raw : List Entry)
    (h : st.last = some []) :
    pollStep st (Stdout.parsed raw) =
      Except.ok { last := some (sortByPath raw),
                  remoteChanged := st.remoteChanged, gate := st.gate } ∧
    (∀ (st2 : PollState) (l raw2 : List Entry),
        st2.last = some l → l ≠ [] → sortByPath raw2 ≠ l →
        pollStep st2 (Stdout.parsed raw2) =
          Except.ok { last := some (sortByPath raw2),
                      remoteChanged := true, gate := requestSync st2.gate }) := by
  constructor
  · simp [pollStep, fetch_remote_state, pollFire, h]
  · intro st2 l raw2 hl hne hdiff
    have hfire : pollFire st2.last (sortByPath raw2) = true := by
      simp [pollFire, hl, hne, hdiff, List.isEmpty_iff]
    simp [pollStep, fetch_remote_state, hfire]

/-- Witness for claim C10: with the empty listing as baseline, a poll that
finds a non-empty remote neither sets the flag nor resolves the future,
though it does update the baseline. -/
theorem C10_empty_baseline_blind_witness :
    ({ last := some [], remoteChanged := false, gate := some false } : PollState).last = some [] ∧
    pollStep { last := some [], remoteChanged := false, gate := some false }
        (Stdout.parsed [("a", "m1")]) =
      Except.ok { last := some [("a", "m1")],
                  remoteChanged := false, gate := some false } :=
  ⟨rfl, ((C10_empty_baseline_blind _ _ rfl).1).trans (congrArg Except.ok (by decide))⟩
